import Mathlib

/-!
Verification development for the ShigiAI cold-outreach system.

The repository ships the operator-facing layer (two dashboards and their API
clients, under `Frontend/` and `cold_outreach_agent/dashboard/`).  The
supervisory backend (AgentController, LeadLifecycle, OutreachScheduler,
QuotaTracker) is described by the specification but its code is not part of
the repository snapshot; where a property is decided by that backend, the
corresponding definition below is modelled from the specification and says so
in its doc comment.  Everything else is translated directly from the
JavaScript/TypeScript sources, with the source file named in the doc comment.
-/

namespace ShigiAI

/-! ## Lead data model (spec section 3) -/

/-- Review status of a lead: pending / approved / rejected. -/
inductive ReviewStatus where
  | pending
  | approved
  | rejected
deriving DecidableEq, Repr

/-- Lifecycle state of a lead (spec section 4.3). -/
inductive LifecycleState where
  | DISCOVERED
  | ANALYZING
  | ANALYZED
  | PENDING_REVIEW
  | APPROVED
  | REJECTED
  | READY_FOR_OUTREACH
  | FAILED
deriving DecidableEq, Repr

/-- Outreach status of a lead (spec section 3; also the string constants in
`Frontend/src/pages/Leads.tsx` filters). -/
inductive OutreachStatus where
  | not_sent
  | sent_initial
  | sent_followup
  | replied
  | bounced
  | failed
deriving DecidableEq, Repr

/-- A lead record, with the fields the review and outreach operations touch
(the `Lead` interface of `Frontend/src/lib/api.ts` carries the same fields as
strings). -/
structure Lead where
  lead_id : String
  email : String
  review_status : ReviewStatus
  lifecycle_state : LifecycleState
  outreach_status : OutreachStatus
  last_contacted : Nat
deriving DecidableEq, Repr

/-- Errors of the lead-review operations (spec section 7 taxonomy). -/
inductive LeadError where
  | validationError
  | invalidStateTransition
  | preconditionFailed
deriving DecidableEq, Repr

/-- Modelled from the spec: the backend `approve(lead_id, actor)` handler is
not in the repository snapshot.  Spec section 4.3: approve requires
`review_status == pending` (else InvalidStateTransition) and a non-empty
email (else PreconditionFailed); on success `review_status` becomes
`approved` and a lead sitting at `PENDING_REVIEW` advances to
`READY_FOR_OUTREACH`. -/
def approveLead (l : Lead) : Except LeadError Lead :=
  if l.review_status ≠ ReviewStatus.pending then
    .error .invalidStateTransition
  else if l.email = "" then
    .error .preconditionFailed
  else
    .ok { l with
            review_status := ReviewStatus.approved,
            lifecycle_state :=
              if l.lifecycle_state = LifecycleState.PENDING_REVIEW then
                LifecycleState.READY_FOR_OUTREACH
              else l.lifecycle_state }

/-- Modelled from the spec: the backend `reject(lead_id, actor)` handler is
not in the repository snapshot.  Spec section 4.3: reject requires
`review_status == pending` and sets it to `rejected`; no email constraint;
a lead sitting at `PENDING_REVIEW` moves to the `REJECTED` dead end. -/
def rejectLead (l : Lead) : Except LeadError Lead :=
  if l.review_status ≠ ReviewStatus.pending then
    .error .invalidStateTransition
  else
    .ok { l with
            review_status := ReviewStatus.rejected,
            lifecycle_state :=
              if l.lifecycle_state = LifecycleState.PENDING_REVIEW then
                LifecycleState.REJECTED
              else l.lifecycle_state }

/-- The stored collection of leads (logical leads table of spec section 6). -/
abbrev LeadStore := List Lead

/-- Look up a lead by id (first match). -/
def findLead (store : LeadStore) (id : String) : Option Lead :=
  store.find? (fun l => l.lead_id = id)

/-- Replace the lead(s) carrying the given id. -/
def updateLead (store : LeadStore) (id : String) (l' : Lead) : LeadStore :=
  store.map (fun l => if l.lead_id = id then l' else l)

/-- The multiset of stored lead ids. -/
def storeIds (store : LeadStore) : List String :=
  store.map Lead.lead_id

/-- Modelled from the spec: store-level approve.  An unknown id is a
ValidationError (spec section 7); any error leaves the store untouched. -/
def approveOp (store : LeadStore) (id : String) :
    Except LeadError Unit × LeadStore :=
  match findLead store id with
  | none => (.error .validationError, store)
  | some l =>
    match approveLead l with
    | .error e => (.error e, store)
    | .ok l' => (.ok (), updateLead store id l')

/-- Modelled from the spec: store-level reject, same shape as `approveOp`. -/
def rejectOp (store : LeadStore) (id : String) :
    Except LeadError Unit × LeadStore :=
  match findLead store id with
  | none => (.error .validationError, store)
  | some l =>
    match rejectLead l with
    | .error e => (.error e, store)
    | .ok l' => (.ok (), updateLead store id l')

/-! ## Bulk review operations (spec section 4.3) -/

/-- Per-id outcome of a bulk review operation, as the spec describes it:
approved (or rejected), or skipped with a reason. -/
inductive BulkOutcome where
  | done
  | skipped (reason : String)
deriving DecidableEq, Repr

/-- Human-readable reason attached to a skipped id. -/
def skipReason : LeadError → String
  | .validationError => "unknown lead id"
  | .invalidStateTransition => "not pending review"
  | .preconditionFailed => "no email"

/-- Modelled from the spec: the backend bulk-approve loop is not in the
repository snapshot.  Spec section 4.3: apply the single-item operation per
id; each outcome is recorded independently and one failure never stops the
remaining ids from being processed. -/
def bulkApprove (store : LeadStore) : List String →
    List (String × BulkOutcome) × LeadStore
  | [] => ([], store)
  | id :: ids =>
    let r := approveOp store id
    let out : String × BulkOutcome :=
      match r.1 with
      | .error e => (id, .skipped (skipReason e))
      | .ok _ => (id, .done)
    let rest := bulkApprove r.2 ids
    (out :: rest.1, rest.2)

/-- Modelled from the spec: backend bulk-reject loop, same shape. -/
def bulkReject (store : LeadStore) : List String →
    List (String × BulkOutcome) × LeadStore
  | [] => ([], store)
  | id :: ids =>
    let r := rejectOp store id
    let out : String × BulkOutcome :=
      match r.1 with
      | .error e => (id, .skipped (skipReason e))
      | .ok _ => (id, .done)
    let rest := bulkReject r.2 ids
    (out :: rest.1, rest.2)

/-- Response type of `api.bulkApproveLeads` as declared in
`Frontend/src/lib/api.ts`: only a success flag and an aggregate
`approved_count`, no per-id outcomes. -/
structure BulkApproveResponse where
  success : Bool
  approved_count : Nat
deriving DecidableEq, Repr

/-- Response type of `api.bulkRejectLeads` as declared in
`Frontend/src/lib/api.ts`: a success flag and an aggregate
`rejected_count`. -/
structure BulkRejectResponse where
  success : Bool
  rejected_count : Nat
deriving DecidableEq, Repr

/-- Collapse the per-id outcomes into the aggregate response the API
declares: the count of ids that went through. -/
def toBulkApproveResponse (outs : List (String × BulkOutcome)) :
    BulkApproveResponse :=
  { success := true,
    approved_count := (outs.filter (fun p => p.2 = BulkOutcome.done)).length }

/-! ## AgentController (spec section 4.1) -/

/-- Global operating states of the agent. -/
inductive AgentPhase where
  | IDLE
  | DISCOVERING
  | OUTREACH_RUNNING
  | PAUSED
  | STOPPING
  | ERROR
deriving DecidableEq, Repr

/-- Kind of long-running work a TaskRunner executes. -/
inductive TaskKind where
  | discovery
  | outreach
deriving DecidableEq, Repr

/-- Structured description of the active task (spec section 3,
`current_task`). -/
structure CurrentTask where
  kind : TaskKind
  query : String
  location : String
  maxResults : Nat
deriving DecidableEq, Repr

/-- The singleton AgentState record (spec section 3). -/
structure AgentSt where
  state : AgentPhase
  previous_state : AgentPhase
  last_transition_time : Nat
  last_heartbeat : Nat
  current_task : Option CurrentTask
  error_message : Option String
  controlled_by : String
  reason : String
deriving DecidableEq, Repr

/-- Operator commands accepted by the AgentController. -/
inductive Command where
  | start_discovery (query location : String) (maxResults : Nat)
  | start_outreach
  | pause
  | resume
  | stop
  | reset
deriving DecidableEq, Repr

/-- Command failures (spec section 7 taxonomy). -/
inductive CmdError where
  | validationError
  | invalidStateTransition
deriving DecidableEq, Repr

/-- Result recorded on a control-log entry. -/
inductive LogResult where
  | success
  | rejected
deriving DecidableEq, Repr

/-- Immutable record of one attempted state transition (spec section 3). -/
structure ControlLogEntry where
  timestamp : Nat
  prev_state : AgentPhase
  new_state : AgentPhase
  controlled_by : String
  reason : String
  result : LogResult
  error_detail : Option String
deriving DecidableEq, Repr

/-- The controller owns the AgentState, the control log and the lifecycle of
the active TaskRunner. -/
structure Controller where
  agent : AgentSt
  controlLog : List ControlLogEntry
  runner : Option TaskKind
deriving DecidableEq, Repr

/-- The allowed-from column of the transition table in spec section 4.1. -/
def allowedFrom : Command → AgentPhase → Bool
  | .start_discovery _ _ _, s => s = AgentPhase.IDLE
  | .start_outreach, s => s = AgentPhase.IDLE
  | .pause, s => s = AgentPhase.DISCOVERING ∨ s = AgentPhase.OUTREACH_RUNNING
  | .resume, s => s = AgentPhase.PAUSED
  | .stop, s => s = AgentPhase.DISCOVERING ∨ s = AgentPhase.OUTREACH_RUNNING
      ∨ s = AgentPhase.PAUSED
  | .reset, s => s = AgentPhase.ERROR

/-- Input validation (spec section 4.1): `query` and `location` must be
non-empty for start_discovery; every other command carries no input. -/
def validInput : Command → Bool
  | .start_discovery q l _ => ¬ (q = "" ∨ l = "")
  | _ => true

/-- Target state of a command that passes the gate. -/
def targetState (st : AgentSt) : Command → AgentPhase
  | .start_discovery _ _ _ => AgentPhase.DISCOVERING
  | .start_outreach => AgentPhase.OUTREACH_RUNNING
  | .pause => AgentPhase.PAUSED
  | .resume => st.previous_state
  | .stop => AgentPhase.STOPPING
  | .reset => AgentPhase.IDLE

/-- Modelled from the spec: the backend AgentController command handler is
not in the repository snapshot.  Spec sections 4.1 and 7: malformed input
fails with ValidationError before any state change and without touching the
control log; a command from a disallowed state fails with
InvalidStateTransition, mutates nothing, and appends exactly one rejected
ControlLogEntry; a successful transition updates `last_transition_time`,
appends a success entry, populates `current_task` for start commands, spawns
the TaskRunner for start commands, and `reset` clears `error_message`. -/
def handleCommand (now : Nat) (actor why : String) (c : Controller)
    (cmd : Command) : Except CmdError Unit × Controller :=
  if ¬ validInput cmd then
    (.error .validationError, c)
  else if ¬ allowedFrom cmd c.agent.state then
    (.error .invalidStateTransition,
      { c with controlLog := c.controlLog ++
          [{ timestamp := now,
             prev_state := c.agent.state,
             new_state := c.agent.state,
             controlled_by := actor,
             reason := why,
             result := .rejected,
             error_detail := some "invalid state transition" }] })
  else
    let tgt := targetState c.agent cmd
    let task : Option CurrentTask :=
      match cmd with
      | .start_discovery q l m => some ⟨.discovery, q, l, m⟩
      | .start_outreach => some ⟨.outreach, "", "", 0⟩
      | _ => c.agent.current_task
    let newRunner : Option TaskKind :=
      match cmd with
      | .start_discovery _ _ _ => some .discovery
      | .start_outreach => some .outreach
      | _ => c.runner
    (.ok (),
      { agent :=
          { state := tgt,
            previous_state := c.agent.state,
            last_transition_time := now,
            last_heartbeat := c.agent.last_heartbeat,
            current_task := task,
            error_message :=
              if cmd = Command.reset then none else c.agent.error_message,
            controlled_by := actor,
            reason := why },
        controlLog := c.controlLog ++
          [{ timestamp := now,
             prev_state := c.agent.state,
             new_state := tgt,
             controlled_by := actor,
             reason := why,
             result := .success,
             error_detail := none }],
        runner := newRunner })

/-! ## QuotaTracker and the send attempt (spec sections 3, 4.4) -/

/-- Configured send ceilings (per calendar day and rolling hour). -/
structure QuotaConfig where
  daily : Nat
  hourly : Nat
deriving DecidableEq, Repr

/-- QuotaWindow counters for the current day and hour. -/
structure QuotaWindow where
  sentToday : Nat
  sentThisHour : Nat
deriving DecidableEq, Repr

/-- Outcome of one send attempt. -/
inductive SendOutcome where
  | sent
  | quotaExceeded
  | notEligible
deriving DecidableEq, Repr

/-- Advance of `outreach_status` on a successful send (spec section 4.4
step 4). -/
def advanceOutreach : OutreachStatus → OutreachStatus
  | .not_sent => .sent_initial
  | .sent_initial => .sent_followup
  | s => s

/-- Modelled from the spec: the OutreachScheduler send attempt is not in the
repository snapshot.  Spec sections 3 and 4.4: the quota is consulted and
incremented atomically per attempt; an attempt that would exceed the daily or
hourly limit does not execute, increments nothing, and leaves the lead
untouched (it stays `READY_FOR_OUTREACH` for the next window); a successful
send increments both counters, advances `outreach_status` and updates
`last_contacted`. -/
def attemptSend (cfg : QuotaConfig) (now : Nat) (w : QuotaWindow)
    (l : Lead) : SendOutcome × QuotaWindow × Lead :=
  if l.lifecycle_state ≠ LifecycleState.READY_FOR_OUTREACH then
    (.notEligible, w, l)
  else if w.sentToday + 1 > cfg.daily ∨ w.sentThisHour + 1 > cfg.hourly then
    (.quotaExceeded, w, l)
  else
    (.sent,
     { sentToday := w.sentToday + 1, sentThisHour := w.sentThisHour + 1 },
     { l with outreach_status := advanceOutreach l.outreach_status,
              last_contacted := now })

/-- Run a whole sequence of send attempts.  The spec makes quota updates
atomic (section 5), so any interleaving of concurrent attempts is observed as
one such serialized sequence. -/
def sendAll (cfg : QuotaConfig) (now : Nat) (w : QuotaWindow) :
    List Lead → QuotaWindow × List Lead
  | [] => (w, [])
  | l :: ls =>
    let r := attemptSend cfg now w l
    let rest := sendAll cfg now r.2.1 ls
    (rest.1, r.2.2 :: rest.2)

/-! ## The client-side call surface

Every HTTP call the repository's sources issue, with the deadline it is
configured with.  `Frontend/src/lib/api.ts` routes all of its calls through
one axios instance created with `timeout: 10000`; the Leads page
(`Frontend/src/pages/Leads.tsx`) additionally declares five helpers, and the
LeadDetail page (`Frontend/src/pages/LeadDetail.tsx`) three, on the
default axios object, which ships with no timeout; the
`cold_outreach_agent/dashboard/src/api.js` client uses
`AbortSignal.timeout(5000)` inside `fetchWithFallback` and
`AbortSignal.timeout(10000)` inside `postAgentControl`; the second dashboard
client uses 10000 for `fetchWithFallback` and `postAgentControl` and 5000 for
`getLeadDetail`. -/

/-- HTTP method of a client call. -/
inductive HttpMethod where
  | get
  | post
  | put
  | delete
deriving DecidableEq, Repr

/-- Which source file declares the call. -/
inductive CallSite where
  | apiTs
  | leadsPageLocal
  | leadDetailPageLocal
  | dashboardApiJs
  | secondDashboardApiJs
deriving DecidableEq, Repr

/-- One external HTTP call declared by the client layer: its name, method,
path template, configured deadline in milliseconds (none when the call is
made with no timeout at all), and the file it lives in. -/
structure ApiCall where
  name : String
  method : HttpMethod
  path : String
  timeoutMs : Option Nat
  site : CallSite
deriving DecidableEq, Repr

/-- The five locally declared axios helpers of `Frontend/src/pages/Leads.tsx`
(lines 27 to 50).  They call `axios.post` / `axios.delete` on the default
axios instance, whose default timeout is 0, meaning no timeout. -/
def leadsPageLocalCalls : List ApiCall :=
  [ ⟨"bulkApproveLeads", .post, "/api/leads/bulk-approve", none, .leadsPageLocal⟩,
    ⟨"bulkRejectLeads", .post, "/api/leads/bulk-reject", none, .leadsPageLocal⟩,
    ⟨"clearAllLeads", .delete, "/api/leads/clear-all", none, .leadsPageLocal⟩,
    ⟨"approveLead", .post, "/api/leads/id/approve", none, .leadsPageLocal⟩,
    ⟨"rejectLead", .post, "/api/leads/id/reject", none, .leadsPageLocal⟩ ]

/-- The three locally declared axios helpers of
`Frontend/src/pages/LeadDetail.tsx` (lines 14 to 27; the staged second copy
of the page at lines 443 to 456 declares the same three).  They call
`axios.get` / `axios.post` on the default axios instance, whose default
timeout is 0, meaning no timeout. -/
def leadDetailPageLocalCalls : List ApiCall :=
  [ ⟨"fetchLeadDetail", .get, "/api/leads/id", none, .leadDetailPageLocal⟩,
    ⟨"approveLead", .post, "/api/leads/id/approve", none, .leadDetailPageLocal⟩,
    ⟨"rejectLead", .post, "/api/leads/id/reject", none, .leadDetailPageLocal⟩ ]

/-- The calls of the `api` object in `Frontend/src/lib/api.ts`, all through
the `apiClient` axios instance configured with `timeout: 10000`.  Path
parameters are written as a literal `id` segment. -/
def apiTsCalls : List ApiCall :=
  [ ⟨"getOverview", .get, "/api/overview", some 10000, .apiTs⟩,
    ⟨"getLeads", .get, "/api/leads", some 10000, .apiTs⟩,
    ⟨"getLeadDetail", .get, "/api/leads/id", some 10000, .apiTs⟩,
    ⟨"approveLead", .post, "/api/leads/id/approve", some 10000, .apiTs⟩,
    ⟨"rejectLead", .post, "/api/leads/id/reject", some 10000, .apiTs⟩,
    ⟨"bulkApproveLeads", .post, "/api/leads/bulk-approve", some 10000, .apiTs⟩,
    ⟨"bulkRejectLeads", .post, "/api/leads/bulk-reject", some 10000, .apiTs⟩,
    ⟨"getLogs", .get, "/api/logs", some 10000, .apiTs⟩,
    ⟨"getSystemStatus", .get, "/api/system", some 10000, .apiTs⟩,
    ⟨"getAgentState", .get, "/api/agent/state", some 10000, .apiTs⟩,
    ⟨"getControlLogs", .get, "/api/agent/control-logs", some 10000, .apiTs⟩,
    ⟨"startDiscovery", .post, "/api/agent/discover/start", some 10000, .apiTs⟩,
    ⟨"stopDiscovery", .post, "/api/agent/discover/stop", some 10000, .apiTs⟩,
    ⟨"startOutreach", .post, "/api/agent/outreach/start", some 10000, .apiTs⟩,
    ⟨"stopOutreach", .post, "/api/agent/outreach/stop", some 10000, .apiTs⟩,
    ⟨"pauseAgent", .post, "/api/agent/pause", some 10000, .apiTs⟩,
    ⟨"resumeAgent", .post, "/api/agent/resume", some 10000, .apiTs⟩,
    ⟨"stopAgent", .post, "/api/agent/stop", some 10000, .apiTs⟩,
    ⟨"resetAgent", .post, "/api/agent/reset", some 10000, .apiTs⟩,
    ⟨"healthCheck", .get, "/api/health", some 10000, .apiTs⟩,
    ⟨"getEmailTemplates", .get, "/api/email-templates", some 10000, .apiTs⟩,
    ⟨"getEmailTemplate", .get, "/api/email-templates/id", some 10000, .apiTs⟩,
    ⟨"updateEmailTemplate", .put, "/api/email-templates/id", some 10000, .apiTs⟩,
    ⟨"resetEmailTemplate", .delete, "/api/email-templates/id", some 10000, .apiTs⟩,
    ⟨"sendTestEmail", .post, "/api/email/test", some 10000, .apiTs⟩,
    ⟨"enrichLead", .post, "/api/enrichment/enrich/id", some 10000, .apiTs⟩,
    ⟨"getEnrichmentData", .get, "/api/enrichment/id", some 10000, .apiTs⟩,
    ⟨"getLeadScore", .get, "/api/scoring/id", some 10000, .apiTs⟩,
    ⟨"updateLeadScore", .post, "/api/scoring/id/override", some 10000, .apiTs⟩,
    ⟨"getAnalyticsDashboard", .get, "/api/analytics/dashboard", some 10000, .apiTs⟩,
    ⟨"getCampaignMetrics", .get, "/api/analytics/campaigns", some 10000, .apiTs⟩,
    ⟨"getFunnelMetrics", .get, "/api/analytics/funnel", some 10000, .apiTs⟩,
    ⟨"getCampaigns", .get, "/api/campaigns", some 10000, .apiTs⟩,
    ⟨"createCampaign", .post, "/api/campaigns", some 10000, .apiTs⟩,
    ⟨"updateCampaign", .put, "/api/campaigns/id", some 10000, .apiTs⟩,
    ⟨"toggleCampaign", .post, "/api/campaigns/id/toggle", some 10000, .apiTs⟩,
    ⟨"getOpportunities", .get, "/api/crm/opportunities", some 10000, .apiTs⟩,
    ⟨"updateOpportunityStage", .put, "/api/crm/opportunities/id/stage", some 10000, .apiTs⟩,
    ⟨"addLeadNote", .post, "/api/crm/leads/id/notes", some 10000, .apiTs⟩,
    ⟨"getLeadNotes", .get, "/api/crm/leads/id/notes", some 10000, .apiTs⟩,
    ⟨"getLeadTimeline", .get, "/api/crm/leads/id/timeline", some 10000, .apiTs⟩,
    ⟨"getUsers", .get, "/api/users", some 10000, .apiTs⟩,
    ⟨"createUser", .post, "/api/users", some 10000, .apiTs⟩,
    ⟨"updateUserRole", .put, "/api/users/id/role", some 10000, .apiTs⟩,
    ⟨"importCSV", .post, "/api/import/csv", some 10000, .apiTs⟩,
    ⟨"exportCSV", .get, "/api/export/csv", some 10000, .apiTs⟩,
    ⟨"syncGoogleSheets", .post, "/api/sync/google-sheets", some 10000, .apiTs⟩,
    ⟨"getWebhooks", .get, "/api/webhooks", some 10000, .apiTs⟩,
    ⟨"createWebhook", .post, "/api/webhooks", some 10000, .apiTs⟩,
    ⟨"toggleWebhook", .put, "/api/webhooks/id/toggle", some 10000, .apiTs⟩,
    ⟨"getComplianceStatus", .get, "/api/compliance/status", some 10000, .apiTs⟩,
    ⟨"addToDoNotContact", .post, "/api/compliance/do-not-contact", some 10000, .apiTs⟩,
    ⟨"getDoNotContactList", .get, "/api/compliance/do-not-contact", some 10000, .apiTs⟩ ]

/-- The calls of `cold_outreach_agent/dashboard/src/api.js`: the reads go
through `fetchWithFallback` with `AbortSignal.timeout(5000)`, `getLeadDetail`
uses 5000 directly, and every command goes through `postAgentControl` with
`AbortSignal.timeout(10000)`. -/
def dashboardApiJsCalls : List ApiCall :=
  [ ⟨"getOverview", .get, "/api/overview", some 5000, .dashboardApiJs⟩,
    ⟨"getLeads", .get, "/api/leads", some 5000, .dashboardApiJs⟩,
    ⟨"getLeadDetail", .get, "/api/leads/id", some 5000, .dashboardApiJs⟩,
    ⟨"getLogs", .get, "/api/logs", some 5000, .dashboardApiJs⟩,
    ⟨"getSystem", .get, "/api/system", some 5000, .dashboardApiJs⟩,
    ⟨"getAgentState", .get, "/api/agent/state", some 5000, .dashboardApiJs⟩,
    ⟨"getControlLogs", .get, "/api/agent/control-logs", some 5000, .dashboardApiJs⟩,
    ⟨"startDiscovery", .post, "/api/agent/discover/start", some 10000, .dashboardApiJs⟩,
    ⟨"stopDiscovery", .post, "/api/agent/discover/stop", some 10000, .dashboardApiJs⟩,
    ⟨"startOutreach", .post, "/api/agent/outreach/start", some 10000, .dashboardApiJs⟩,
    ⟨"stopOutreach", .post, "/api/agent/outreach/stop", some 10000, .dashboardApiJs⟩,
    ⟨"pauseAgent", .post, "/api/agent/pause", some 10000, .dashboardApiJs⟩,
    ⟨"resumeAgent", .post, "/api/agent/resume", some 10000, .dashboardApiJs⟩,
    ⟨"stopAgent", .post, "/api/agent/stop", some 10000, .dashboardApiJs⟩,
    ⟨"resetAgent", .post, "/api/agent/reset", some 10000, .dashboardApiJs⟩,
    ⟨"approveLead", .post, "/api/leads/id/approve", some 10000, .dashboardApiJs⟩,
    ⟨"rejectLead", .post, "/api/leads/id/reject", some 10000, .dashboardApiJs⟩,
    ⟨"bulkApproveLeads", .post, "/api/leads/bulk-approve", some 10000, .dashboardApiJs⟩,
    ⟨"bulkRejectLeads", .post, "/api/leads/bulk-reject", some 10000, .dashboardApiJs⟩ ]

/-- The calls of the second dashboard client (the unnamed `api.js` variant):
`fetchWithFallback` uses `AbortSignal.timeout(10000)`, `getLeadDetail` 5000,
`postAgentControl` 10000. -/
def secondDashboardApiJsCalls : List ApiCall :=
  [ ⟨"getOverview", .get, "/api/overview", some 10000, .secondDashboardApiJs⟩,
    ⟨"getLeads", .get, "/api/leads", some 10000, .secondDashboardApiJs⟩,
    ⟨"getLeadDetail", .get, "/api/leads/id", some 5000, .secondDashboardApiJs⟩,
    ⟨"getLogs", .get, "/api/logs", some 10000, .secondDashboardApiJs⟩,
    ⟨"getSystem", .get, "/system/status", some 10000, .secondDashboardApiJs⟩,
    ⟨"getAnalyticsDashboard", .get, "/api/analytics/dashboard", some 10000, .secondDashboardApiJs⟩,
    ⟨"getEnrichmentData", .post, "/api/enrichment/enrich/id", some 10000, .secondDashboardApiJs⟩,
    ⟨"getLeadScore", .get, "/api/scoring/id", some 10000, .secondDashboardApiJs⟩,
    ⟨"getPublicDirectory", .get, "/api/public/directory", some 10000, .secondDashboardApiJs⟩,
    ⟨"startDiscovery", .post, "/api/discovery/start", some 10000, .secondDashboardApiJs⟩,
    ⟨"approveLead", .post, "/api/leads/id/approve", some 10000, .secondDashboardApiJs⟩,
    ⟨"bulkApproveLeads", .post, "/api/leads/bulk-approve", some 10000, .secondDashboardApiJs⟩ ]

/-- Every external HTTP call declared by the repository's client sources. -/
def externalCalls : List ApiCall :=
  apiTsCalls ++ leadsPageLocalCalls ++ leadDetailPageLocalCalls ++
    dashboardApiJsCalls ++ secondDashboardApiJsCalls

/-- A call that deletes lead records: a DELETE on a path under
`/api/leads`. -/
def isLeadDeletion (c : ApiCall) : Bool :=
  c.method = HttpMethod.delete &&
    List.isPrefixOf "/api/leads".data c.path.data

/-! ## Operator-dashboard gating of the Start Outreach control -/

/-- The JavaScript `String.prototype.toUpperCase()`, character by
character. -/
def jsToUpper (s : String) : String :=
  ⟨s.data.map Char.toUpper⟩

/-- Agent state string as the Frontend Index page computes it:
`(systemStatus?.agent_state || 'IDLE').toUpperCase()` (the `||` falls back on
a missing or empty value). -/
def indexAgentState (agent_state : Option String) : String :=
  match agent_state with
  | none => "IDLE"
  | some s => if s = "" then "IDLE" else jsToUpper s

/-- The Frontend Index page renders its Start Outreach button only inside the
`agentState === 'IDLE'` block. -/
def indexStartOutreachShown (agent_state : Option String) : Bool :=
  indexAgentState agent_state = "IDLE"

/-- Disabled condition of the Frontend Index page Start Outreach button:
`startOutreachMutation.isPending || (stats.pending_review === 0 &&
pendingLeadsList.length === 0)`.  It never consults the approved count. -/
def indexStartOutreachDisabled (isPending : Bool)
    (pending_review pendingLen : Nat) : Bool :=
  isPending || (pending_review = 0 && pendingLen = 0)

/-- The Start Outreach control of the Frontend Index page is actionable when
it is rendered and not disabled. -/
def indexStartOutreachEnabled (agent_state : Option String) (isPending : Bool)
    (pending_review pendingLen : Nat) : Bool :=
  indexStartOutreachShown agent_state &&
    !(indexStartOutreachDisabled isPending pending_review pendingLen)

/-- Disabled condition of the Overview page Start Outreach button in the
cold_outreach_agent dashboard: `!isIdle || overview?.approved === 0 ||
actionLoading`, with `isIdle` being `state === 'idle'`. -/
def overviewStartOutreachDisabled (state : String) (approved : Nat)
    (actionLoading : Bool) : Bool :=
  !(state = "idle") || approved = 0 || actionLoading

/-- The Start Outreach control of the cold_outreach_agent Overview page is
actionable when not disabled (the button is always rendered there). -/
def overviewStartOutreachEnabled (state : String) (approved : Nat)
    (actionLoading : Bool) : Bool :=
  !(overviewStartOutreachDisabled state approved actionLoading)

/-- The JavaScript `trim()` on a character list: strip whitespace from both
ends. -/
def trimChars (cs : List Char) : List Char :=
  ((cs.dropWhile Char.isWhitespace).reverse.dropWhile Char.isWhitespace).reverse

/-- The JavaScript `String.prototype.trim()`. -/
def jsTrim (s : String) : String :=
  ⟨trimChars s.data⟩

/-- Guard of `handleStartDiscovery` in both dashboards (Frontend Index page
and cold_outreach_agent Overview page): the start-discovery request is
dispatched only when both trimmed inputs are non-empty; otherwise the handler
shows an error and returns without calling the API. -/
def handleStartDiscoveryDispatches (query location : String) : Bool :=
  !(jsTrim query = "") && !(jsTrim location = "")

/-! ## The read helpers built on fetchWithFallback
(`cold_outreach_agent/dashboard/src/api.js`) -/

/-- A JavaScript value as far as the cache logic can observe it: the
`lastKnownData` check is plain truthiness. -/
inductive JsVal where
  | jnull
  | jbool (b : Bool)
  | jnum (n : Int)
  | jstr (s : String)
  | jobj (tag : String)
deriving DecidableEq, Repr

/-- JavaScript truthiness: null, false, 0 and the empty string are falsy. -/
def truthy : JsVal → Bool
  | .jnull => false
  | .jbool b => b
  | .jnum n => n ≠ 0
  | .jstr s => s ≠ ""
  | .jobj _ => true

/-- The `lastKnownData` object: a key-value store whose missing keys read as
null (JavaScript undefined is equally falsy). -/
abbrev Cache := List (String × JsVal)

/-- Read a cache key; a key never written reads as null. -/
def cacheGet (c : Cache) (k : String) : JsVal :=
  match c.lookup k with
  | some v => v
  | none => .jnull

/-- Write a cache key. -/
def cacheSet (c : Cache) (k : String) (v : JsVal) : Cache :=
  (k, v) :: c

/-- What the surrounding `try` block observes of one fetch: either the parsed
JSON body of an ok response, or a thrown error (network failure, timeout via
`AbortSignal.timeout(5000)`, a non-ok status, or a JSON parse failure) with
its message. -/
inductive FetchOutcome where
  | success (v : JsVal)
  | failure (msg : String)
deriving DecidableEq, Repr

/-- The record every read helper resolves with. -/
structure FetchResult where
  data : Option JsVal
  stale : Bool
  error : Option String
deriving DecidableEq, Repr

/-- The `fetchWithFallback` helper of
`cold_outreach_agent/dashboard/src/api.js` (lines 11 to 26), as a function of
the current cache and the observed fetch outcome for the endpoint.  On
success it caches the body and resolves fresh; on any thrown error it falls
back to `lastKnownData[cacheKey]` when that value is truthy, and resolves
with null data otherwise.  The function always resolves; nothing escapes the
`try`/`catch`. -/
def fetchWithFallback (cache : Cache) (cacheKey : String)
    (outcome : FetchOutcome) : FetchResult × Cache :=
  match outcome with
  | .success v =>
    ({ data := some v, stale := false, error := none },
     cacheSet cache cacheKey v)
  | .failure msg =>
    if truthy (cacheGet cache cacheKey) then
      ({ data := some (cacheGet cache cacheKey), stale := true,
         error := some msg }, cache)
    else
      ({ data := none, stale := false, error := some msg }, cache)

/-- The read helper `getOverview` of the dashboard client. -/
def getOverview (cache : Cache) (outcome : FetchOutcome) :
    FetchResult × Cache :=
  fetchWithFallback cache "overview" outcome

/-- The read helper `getLeads` of the dashboard client (the filters only
shape the query string, not the cache logic). -/
def getLeads (cache : Cache) (outcome : FetchOutcome) :
    FetchResult × Cache :=
  fetchWithFallback cache "leads" outcome

/-- The read helper `getLogs` of the dashboard client. -/
def getLogs (cache : Cache) (outcome : FetchOutcome) :
    FetchResult × Cache :=
  fetchWithFallback cache "logs" outcome

/-- The read helper `getSystem` of the dashboard client. -/
def getSystem (cache : Cache) (outcome : FetchOutcome) :
    FetchResult × Cache :=
  fetchWithFallback cache "system" outcome

/-- The read helper `getAgentState` of the dashboard client. -/
def getAgentState (cache : Cache) (outcome : FetchOutcome) :
    FetchResult × Cache :=
  fetchWithFallback cache "agentState" outcome

/-- The read helper `getControlLogs` of the dashboard client. -/
def getControlLogs (cache : Cache) (outcome : FetchOutcome) :
    FetchResult × Cache :=
  fetchWithFallback cache "controlLogs" outcome

/-- The fallback behaviour exactly as the claim words it: on a fetch error
the helper returns the last successfully fetched value for the cache key with
stale set, whenever one exists at all.  Kept separate from
`fetchWithFallback` (the code) so the two can be compared. -/
def fetchWithFallbackClaimed (cache : Cache) (cacheKey : String)
    (outcome : FetchOutcome) : FetchResult × Cache :=
  match outcome with
  | .success v =>
    ({ data := some v, stale := false, error := none },
     cacheSet cache cacheKey v)
  | .failure msg =>
    match cache.lookup cacheKey with
    | some v => ({ data := some v, stale := true, error := some msg }, cache)
    | none => ({ data := none, stale := false, error := some msg }, cache)

/-! ## Sample records used by the witnesses -/

/-- A pending lead with no email address. -/
def leadNoEmail : Lead :=
  ⟨"lead-a", "", .pending, .PENDING_REVIEW, .not_sent, 0⟩

/-- A pending lead with an email address. -/
def leadWithEmail : Lead :=
  ⟨"lead-b", "owner@example.com", .pending, .PENDING_REVIEW, .not_sent, 0⟩

/-- An approved lead. -/
def leadApproved : Lead :=
  ⟨"lead-c", "owner@example.com", .approved, .READY_FOR_OUTREACH, .not_sent, 0⟩

/-- Scenario C store: three pending leads, the second without an email. -/
def storeA : LeadStore :=
  [ ⟨"id1", "a@x.com", .pending, .PENDING_REVIEW, .not_sent, 0⟩,
    ⟨"id2", "", .pending, .PENDING_REVIEW, .not_sent, 0⟩,
    ⟨"id3", "c@x.com", .pending, .PENDING_REVIEW, .not_sent, 0⟩ ]

/-- A store like `storeA` but with the missing email on the first lead
instead of the second. -/
def storeB : LeadStore :=
  [ ⟨"id1", "", .pending, .PENDING_REVIEW, .not_sent, 0⟩,
    ⟨"id2", "b@x.com", .pending, .PENDING_REVIEW, .not_sent, 0⟩,
    ⟨"id3", "c@x.com", .pending, .PENDING_REVIEW, .not_sent, 0⟩ ]

/-- An idle controller with an empty control log. -/
def idleController : Controller :=
  { agent :=
      { state := .IDLE, previous_state := .IDLE, last_transition_time := 0,
        last_heartbeat := 0, current_task := none, error_message := none,
        controlled_by := "system", reason := "startup" },
    controlLog := [], runner := none }

/-! ## Claim theorems -/

/-- Claim C1: approving a pending lead whose email is empty fails with
PreconditionFailed and leaves the store (hence every field of the lead)
untouched, and an approve can only succeed on a lead whose email is
non-empty. -/
theorem C1_approve_requires_email :
    (∀ (store : LeadStore) (id : String) (l : Lead),
      findLead store id = some l →
      l.review_status = ReviewStatus.pending →
      l.email = "" →
      approveOp store id = (.error .preconditionFailed, store))
    ∧
    (∀ (store : LeadStore) (id : String) (store' : LeadStore),
      approveOp store id = (.ok (), store') →
      ∃ l, findLead store id = some l ∧ l.email ≠ "") := by
  constructor
  · intro store id l hfind hpend hmail
    simp [approveOp, hfind, approveLead, hpend, hmail]
  · intro store id store' h
    unfold approveOp at h
    cases hf : findLead store id with
    | none => rw [hf] at h; simp at h
    | some l =>
      rw [hf] at h
      refine ⟨l, rfl, ?_⟩
      intro hm
      by_cases hp : l.review_status = ReviewStatus.pending
      · simp [approveLead, hp, hm] at h
      · simp [approveLead, hp] at h

/-- Claim C1 witness: a concrete pending lead without an email is rejected
with PreconditionFailed and the store is unchanged, while a concrete approve
that succeeds exhibits a non-empty email. -/
theorem C1_approve_requires_email_witness :
    approveOp [leadNoEmail] "lead-a" =
      (.error .preconditionFailed, [leadNoEmail]) ∧
    (∃ l, findLead [leadWithEmail] "lead-b" = some l ∧ l.email ≠ "") :=
  ⟨C1_approve_requires_email.1 [leadNoEmail] "lead-a" leadNoEmail
      (by decide) (by decide) (by decide),
   C1_approve_requires_email.2 [leadWithEmail] "lead-b"
      (updateLead [leadWithEmail] "lead-b"
        { leadWithEmail with review_status := .approved,
                             lifecycle_state := .READY_FOR_OUTREACH })
      (by rfl)⟩

/-- Claim C4: on a lead whose review status is not pending, both approve and
reject fail with InvalidStateTransition and leave the store untouched, so an
approved lead cannot be rejected and a rejected lead cannot be approved
through these operations. -/
theorem C4_review_requires_pending :
    ∀ (store : LeadStore) (id : String) (l : Lead),
      findLead store id = some l →
      l.review_status ≠ ReviewStatus.pending →
      approveOp store id = (.error .invalidStateTransition, store) ∧
      rejectOp store id = (.error .invalidStateTransition, store) := by
  intro store id l hfind hne
  constructor
  · simp [approveOp, hfind, approveLead, hne]
  · simp [rejectOp, hfind, rejectLead, hne]

/-- Claim C4 witness: a concrete approved lead can be neither approved nor
rejected again, and the store stays as it was. -/
theorem C4_review_requires_pending_witness :
    approveOp [leadApproved] "lead-c" =
      (.error .invalidStateTransition, [leadApproved]) ∧
    rejectOp [leadApproved] "lead-c" =
      (.error .invalidStateTransition, [leadApproved]) :=
  C4_review_requires_pending [leadApproved] "lead-c" leadApproved
    (by decide) (by decide)

/-- Claim C2: a well-formed command issued from a state the transition table
does not allow fails with InvalidStateTransition, leaves every field of
AgentState unchanged, leaves the TaskRunner alone, and appends exactly one
ControlLogEntry with result rejected.  (A start_discovery with empty input
fails earlier with ValidationError, per the section 4.1 validation clause, so
the command is assumed well-formed.) -/
theorem C2_invalid_state_command_rejected :
    ∀ (now : Nat) (actor why : String) (c : Controller) (cmd : Command),
      validInput cmd = true →
      allowedFrom cmd c.agent.state = false →
      (handleCommand now actor why c cmd).1 = .error .invalidStateTransition ∧
      (handleCommand now actor why c cmd).2.agent = c.agent ∧
      (handleCommand now actor why c cmd).2.runner = c.runner ∧
      ∃ e, (handleCommand now actor why c cmd).2.controlLog =
              c.controlLog ++ [e] ∧ e.result = LogResult.rejected := by
  intro now actor why c cmd hv ha
  refine ⟨?_, ?_, ?_,
    ⟨{ timestamp := now, prev_state := c.agent.state,
       new_state := c.agent.state, controlled_by := actor, reason := why,
       result := .rejected, error_detail := some "invalid state transition" },
     ?_, rfl⟩⟩ <;> simp [handleCommand, hv, ha]

/-- Claim C2 witness: a pause issued to a concrete idle controller is
rejected, the AgentState and runner are unchanged, and one rejected entry is
appended. -/
theorem C2_invalid_state_command_rejected_witness :
    (handleCommand 5 "operator" "ui" idleController .pause).1 =
        .error .invalidStateTransition ∧
    (handleCommand 5 "operator" "ui" idleController .pause).2.agent =
        idleController.agent ∧
    (handleCommand 5 "operator" "ui" idleController .pause).2.runner =
        idleController.runner ∧
    ∃ e, (handleCommand 5 "operator" "ui" idleController .pause).2.controlLog =
            idleController.controlLog ++ [e] ∧
         e.result = LogResult.rejected :=
  C2_invalid_state_command_rejected 5 "operator" "ui" idleController .pause
    (by decide) (by decide)

/-- Claim C7: a start_discovery whose query or location is empty fails with
ValidationError and the controller is returned exactly as it was, so
AgentState is unchanged and no TaskRunner is spawned; the dashboards
additionally refuse to even dispatch such a request. -/
theorem C7_start_discovery_validation :
    (∀ (now : Nat) (actor why : String) (c : Controller)
        (q l : String) (m : Nat),
      q = "" ∨ l = "" →
      handleCommand now actor why c (.start_discovery q l m) =
        (.error .validationError, c))
    ∧
    (∀ q l : String, q = "" ∨ l = "" →
      handleStartDiscoveryDispatches q l = false) := by
  constructor
  · intro now actor why c q l m h
    simp [handleCommand, validInput, h]
  · intro q l h
    have ht : jsTrim "" = "" := by decide
    rcases h with h | h <;> subst h <;>
      simp [handleStartDiscoveryDispatches, ht]

/-- Claim C7 witness: a concrete start_discovery with an empty query against
the idle controller fails with ValidationError and returns the controller
untouched, and the dashboards refuse to dispatch it. -/
theorem C7_start_discovery_validation_witness :
    handleCommand 3 "operator" "ui" idleController
        (.start_discovery "" "Austin, TX" 50) =
      (.error .validationError, idleController) ∧
    handleStartDiscoveryDispatches "" "Austin, TX" = false :=
  ⟨C7_start_discovery_validation.1 3 "operator" "ui" idleController
      "" "Austin, TX" 50 (Or.inl rfl),
   C7_start_discovery_validation.2 "" "Austin, TX" (Or.inl rfl)⟩


/-- One send attempt keeps both quota counters at or below their limits. -/
theorem attemptSend_quota_le (cfg : QuotaConfig) (now : Nat) (w : QuotaWindow)
    (l : Lead) (hd : w.sentToday ≤ cfg.daily)
    (hh : w.sentThisHour ≤ cfg.hourly) :
    (attemptSend cfg now w l).2.1.sentToday ≤ cfg.daily ∧
    (attemptSend cfg now w l).2.1.sentThisHour ≤ cfg.hourly := by
  unfold attemptSend
  split
  · exact ⟨hd, hh⟩
  · split
    · exact ⟨hd, hh⟩
    · rename_i hq
      push_neg at hq
      exact ⟨hq.1, hq.2⟩

/-- Claim C3: starting from counters within the configured limits, no
sequence of send attempts (the spec serializes concurrent attempts through an
atomic counter, section 5) ever pushes a QuotaWindow counter past its limit;
and an attempt that would exceed the daily or hourly limit returns
QuotaExceeded, increments nothing, and returns the lead exactly as it was, in
particular still READY_FOR_OUTREACH. -/
theorem C3_quota_limits_respected :
    (∀ (cfg : QuotaConfig) (now : Nat) (w : QuotaWindow) (leads : List Lead),
      w.sentToday ≤ cfg.daily → w.sentThisHour ≤ cfg.hourly →
      (sendAll cfg now w leads).1.sentToday ≤ cfg.daily ∧
      (sendAll cfg now w leads).1.sentThisHour ≤ cfg.hourly)
    ∧
    (∀ (cfg : QuotaConfig) (now : Nat) (w : QuotaWindow) (l : Lead),
      l.lifecycle_state = LifecycleState.READY_FOR_OUTREACH →
      w.sentToday + 1 > cfg.daily ∨ w.sentThisHour + 1 > cfg.hourly →
      attemptSend cfg now w l = (.quotaExceeded, w, l)) := by
  constructor
  · intro cfg now w leads
    induction leads generalizing w with
    | nil => intro hd hh; exact ⟨hd, hh⟩
    | cons l ls ih =>
      intro hd hh
      have hstep := attemptSend_quota_le cfg now w l hd hh
      simpa [sendAll] using ih _ hstep.1 hstep.2
  · intro cfg now w l hl hq
    simp [attemptSend, hl, hq]

/-- Claim C3 witness: with a daily quota of 20 and 20 sends recorded today,
the next attempt on a ready lead returns QuotaExceeded and changes neither
the counters nor the lead (Scenario D); and a burst of attempts never drives
the counter past 20. -/
theorem C3_quota_limits_respected_witness :
    ((sendAll ⟨20, 100⟩ 7 ⟨19, 3⟩
        [leadApproved, leadApproved, leadApproved]).1.sentToday ≤ 20 ∧
     (sendAll ⟨20, 100⟩ 7 ⟨19, 3⟩
        [leadApproved, leadApproved, leadApproved]).1.sentThisHour ≤ 100) ∧
    attemptSend ⟨20, 100⟩ 7 ⟨20, 4⟩ leadApproved =
      (.quotaExceeded, ⟨20, 4⟩, leadApproved) :=
  ⟨C3_quota_limits_respected.1 ⟨20, 100⟩ 7 ⟨19, 3⟩
      [leadApproved, leadApproved, leadApproved] (by decide) (by decide),
   C3_quota_limits_respected.2 ⟨20, 100⟩ 7 ⟨20, 4⟩ leadApproved
      (by decide) (by decide)⟩

/-- Claim C9: both dashboards offer Start Outreach only in the idle state,
but they gate it on different lead counts: the Frontend Index page disables
it exactly when `pending_review` is zero and the visible pending list is
empty, never consulting the approved count, while the cold_outreach_agent
Overview page disables it exactly when the approved count is zero.  With five
pending leads and zero approved leads the Frontend offers the control and the
Overview page does not; with zero pending and three approved leads it is the
other way round. -/
theorem C9_dashboards_disagree_on_start_outreach :
    (∀ (st : String) (approved : Nat) (loading : Bool),
      overviewStartOutreachEnabled st approved loading = true → st = "idle")
    ∧
    (∀ (raw : Option String) (isPending : Bool) (pr len : Nat),
      indexStartOutreachEnabled raw isPending pr len = true →
      indexAgentState raw = "IDLE")
    ∧
    (indexStartOutreachEnabled (some "idle") false 5 5 = true ∧
     overviewStartOutreachEnabled "idle" 0 false = false)
    ∧
    (indexStartOutreachEnabled (some "idle") false 0 0 = false ∧
     overviewStartOutreachEnabled "idle" 3 false = true) := by
  refine ⟨?_, ?_, ⟨by decide, by decide⟩, ⟨by decide, by decide⟩⟩
  · intro st approved loading h
    by_cases hs : st = "idle"
    · exact hs
    · simp [overviewStartOutreachEnabled, overviewStartOutreachDisabled,
        hs] at h
  · intro raw isPending pr len h
    have := And.left (Bool.and_eq_true .. |>.mp h)
    simpa [indexStartOutreachShown] using this

/-- Claim C9 witness: the two general conjuncts applied to the concrete
disagreeing populations. -/
theorem C9_dashboards_disagree_on_start_outreach_witness :
    "idle" = "idle" ∧ indexAgentState (some "idle") = "IDLE" :=
  ⟨C9_dashboards_disagree_on_start_outreach.1 "idle" 3 false (by decide),
   C9_dashboards_disagree_on_start_outreach.2.1 (some "idle") false 5 5
      (by decide)⟩

/-! ## Helper lemmas about the lead store -/

/-- Unfolding `findLead` over a cons cell. -/
theorem findLead_cons (a : Lead) (as : LeadStore) (id : String) :
    findLead (a :: as) id =
      if a.lead_id = id then some a else findLead as id := by
  by_cases h : a.lead_id = id
  · simp [findLead, List.find?_cons_of_pos, h]
  · simp [findLead, List.find?_cons_of_neg, h]

/-- Unfolding `storeIds` over a cons cell. -/
theorem storeIds_cons (a : Lead) (as : LeadStore) :
    storeIds (a :: as) = a.lead_id :: storeIds as := rfl

/-- Updating one id leaves lookups of any other id untouched (the
replacement keeps the updated id). -/
theorem findLead_updateLead (store : LeadStore) (j id : String) (x : Lead)
    (hx : x.lead_id = j) (hne : j ≠ id) :
    findLead (updateLead store j x) id = findLead store id := by
  induction store with
  | nil => rfl
  | cons a as ih =>
    have hrec : updateLead (a :: as) j x =
        (if a.lead_id = j then x else a) :: updateLead as j x := rfl
    rw [hrec, findLead_cons, findLead_cons]
    by_cases ha : a.lead_id = j
    · simp [ha, hx, hne, ih]
    · simp [ha, ih]

/-- A successful `approveLead` came from a pending lead with a non-empty
email and keeps the lead id. -/
theorem approveLead_ok (l l' : Lead) (h : approveLead l = .ok l') :
    l.review_status = ReviewStatus.pending ∧ l.email ≠ "" ∧
    l'.lead_id = l.lead_id := by
  unfold approveLead at h
  by_cases hp : l.review_status = ReviewStatus.pending
  · by_cases hm : l.email = ""
    · simp [hp, hm] at h
    · refine ⟨hp, hm, ?_⟩
      simp only [hp, hm, if_neg, if_false] at h
      simp at h
      rw [← h]
  · simp [hp] at h

/-- A successful `rejectLead` keeps the lead id. -/
theorem rejectLead_ok (l l' : Lead) (h : rejectLead l = .ok l') :
    l'.lead_id = l.lead_id := by
  unfold rejectLead at h
  by_cases hp : l.review_status = ReviewStatus.pending
  · simp only [hp] at h
    simp at h
    rw [← h]
  · simp [hp] at h

/-- The lead an approve found carries the id it was looked up by. -/
theorem findLead_id (store : LeadStore) (id : String) (l : Lead)
    (h : findLead store id = some l) : l.lead_id = id := by
  have := List.find?_some h
  simpa using this

/-- An approve of any id never disturbs a pending lead without an email. -/
theorem approveOp_preserves_blocked (store : LeadStore) (j id : String)
    (l : Lead) (hfind : findLead store id = some l)
    (hp : l.review_status = ReviewStatus.pending) (hm : l.email = "") :
    findLead (approveOp store j).2 id = some l := by
  unfold approveOp
  split
  · exact hfind
  · rename_i lj hf
    split
    · exact hfind
    · rename_i lj' hal
      have hok := approveLead_ok lj lj' hal
      have hjid : lj.lead_id = j := findLead_id store j lj hf
      have hne : j ≠ id := by
        intro he
        subst he
        rw [hf] at hfind
        cases hfind
        exact hok.2.1 hm
      simpa [findLead_updateLead store j id lj' (hok.2.2.trans hjid) hne]
        using hfind

/-- The approve of one id never shrinks or reorders the stored ids. -/
theorem storeIds_approveOp (store : LeadStore) (id : String) :
    storeIds (approveOp store id).2 = storeIds store := by
  unfold approveOp
  split
  · rfl
  · rename_i l hf
    split
    · rfl
    · rename_i l' hal
      have hid : l.lead_id = id := findLead_id store id l hf
      have hl' : l'.lead_id = l.lead_id := (approveLead_ok l l' hal).2.2
      show storeIds (updateLead store id l') = storeIds store
      have hx : l'.lead_id = id := hl'.trans hid
      clear hal hf
      induction store with
      | nil => rfl
      | cons a as ih =>
        have hrec : updateLead (a :: as) id l' =
            (if a.lead_id = id then l' else a) :: updateLead as id l' := rfl
        rw [hrec, storeIds_cons, storeIds_cons, ih]
        by_cases ha : a.lead_id = id
        · simp [ha, hx]
        · simp [ha]

/-- The reject of one id never shrinks or reorders the stored ids. -/
theorem storeIds_rejectOp (store : LeadStore) (id : String) :
    storeIds (rejectOp store id).2 = storeIds store := by
  unfold rejectOp
  split
  · rfl
  · rename_i l hf
    split
    · rfl
    · rename_i l' hal
      have hid : l.lead_id = id := findLead_id store id l hf
      have hl' : l'.lead_id = l.lead_id := rejectLead_ok l l' hal
      show storeIds (updateLead store id l') = storeIds store
      have hx : l'.lead_id = id := hl'.trans hid
      clear hal hf
      induction store with
      | nil => rfl
      | cons a as ih =>
        have hrec : updateLead (a :: as) id l' =
            (if a.lead_id = id then l' else a) :: updateLead as id l' := rfl
        rw [hrec, storeIds_cons, storeIds_cons, ih]
        by_cases ha : a.lead_id = id
        · simp [ha, hx]
        · simp [ha]

/-- Every id handed to `bulkApprove` is processed, in order. -/
theorem bulkApprove_fst (store : LeadStore) (ids : List String) :
    (bulkApprove store ids).1.map Prod.fst = ids := by
  induction ids generalizing store with
  | nil => rfl
  | cons j ids ih =>
    simp only [bulkApprove]
    cases (approveOp store j).1 <;> simp [ih]

/-- Every id handed to `bulkReject` is processed, in order. -/
theorem bulkReject_fst (store : LeadStore) (ids : List String) :
    (bulkReject store ids).1.map Prod.fst = ids := by
  induction ids generalizing store with
  | nil => rfl
  | cons j ids ih =>
    simp only [bulkReject]
    cases (rejectOp store j).1 <;> simp [ih]

/-- A pending lead without an email survives a whole bulkApprove unchanged,
and when its id is in the batch its recorded outcome is a skip with reason
"no email". -/
theorem bulkApprove_preserves_blocked (ids : List String) (store : LeadStore)
    (id : String) (l : Lead) (hfind : findLead store id = some l)
    (hp : l.review_status = ReviewStatus.pending) (hm : l.email = "") :
    findLead (bulkApprove store ids).2 id = some l ∧
    (id ∈ ids →
      (id, BulkOutcome.skipped "no email") ∈ (bulkApprove store ids).1) := by
  induction ids generalizing store with
  | nil =>
    exact ⟨hfind, by simp⟩
  | cons j ids ih =>
    have hstep := approveOp_preserves_blocked store j id l hfind hp hm
    have ihs := ih (approveOp store j).2 hstep
    constructor
    · simpa only [bulkApprove] using ihs.1
    · intro hmem
      rcases List.mem_cons.mp hmem with rfl | hmem'
      · have h1 : (approveOp store id).1 = .error .preconditionFailed := by
          simp [approveOp, hfind, approveLead, hp, hm]
        simp [bulkApprove, h1, skipReason]
      · simp only [bulkApprove]
        exact List.mem_cons_of_mem _ (ihs.2 hmem')

/-- bulkApprove never shrinks or reorders the stored ids. -/
theorem storeIds_bulkApprove (store : LeadStore) (ids : List String) :
    storeIds (bulkApprove store ids).2 = storeIds store := by
  induction ids generalizing store with
  | nil => rfl
  | cons j ids ih =>
    simp only [bulkApprove]
    rw [ih, storeIds_approveOp]

/-- bulkReject never shrinks or reorders the stored ids. -/
theorem storeIds_bulkReject (store : LeadStore) (ids : List String) :
    storeIds (bulkReject store ids).2 = storeIds store := by
  induction ids generalizing store with
  | nil => rfl
  | cons j ids ih =>
    simp only [bulkReject]
    rw [ih, storeIds_rejectOp]

/-- A send attempt keeps the lead id. -/
theorem attemptSend_lead_id (cfg : QuotaConfig) (now : Nat) (w : QuotaWindow)
    (l : Lead) : ((attemptSend cfg now w l).2.2).lead_id = l.lead_id := by
  unfold attemptSend
  split
  · rfl
  split
  · rfl
  · rfl

/-- A whole outreach run keeps the list of lead ids. -/
theorem storeIds_sendAll (cfg : QuotaConfig) (now : Nat) (w : QuotaWindow)
    (leads : List Lead) :
    storeIds (sendAll cfg now w leads).2 = storeIds leads := by
  induction leads generalizing w with
  | nil => rfl
  | cons l ls ih =>
    show storeIds ((attemptSend cfg now w l).2.2 ::
      (sendAll cfg now (attemptSend cfg now w l).2.1 ls).2) = _
    rw [storeIds_cons, storeIds_cons, attemptSend_lead_id, ih]


/-- Claim C5 counterexample: the Frontend Leads page declares a
`clearAllLeads` helper issuing DELETE /api/leads/clear-all, so the claim that
no operation of the system deletes lead records is false of the client call
surface. -/
theorem C5_counterexample_clear_all :
    (⟨"clearAllLeads", .delete, "/api/leads/clear-all", none,
        .leadsPageLocal⟩ : ApiCall) ∈ externalCalls ∧
    isLeadDeletion ⟨"clearAllLeads", .delete, "/api/leads/clear-all", none,
        .leadsPageLocal⟩ = true ∧
    ¬ (∀ c ∈ externalCalls, isLeadDeletion c = false) := by decide

/-- Claim C5 as amended: `clearAllLeads` is the only lead-deleting call in
the client surface, and none of the review or outreach operations ever
shrinks (or even reorders) the list of stored lead ids. -/
theorem C5_leads_retained_except_clear_all :
    (∀ c ∈ externalCalls, isLeadDeletion c = true →
      c.name = "clearAllLeads") ∧
    (∀ (store : LeadStore) (id : String),
      storeIds (approveOp store id).2 = storeIds store ∧
      storeIds (rejectOp store id).2 = storeIds store) ∧
    (∀ (store : LeadStore) (ids : List String),
      storeIds (bulkApprove store ids).2 = storeIds store ∧
      storeIds (bulkReject store ids).2 = storeIds store) ∧
    (∀ (cfg : QuotaConfig) (now : Nat) (w : QuotaWindow)
        (leads : List Lead),
      storeIds (sendAll cfg now w leads).2 = storeIds leads) :=
  ⟨by decide,
   fun store id => ⟨storeIds_approveOp store id, storeIds_rejectOp store id⟩,
   fun store ids =>
     ⟨storeIds_bulkApprove store ids, storeIds_bulkReject store ids⟩,
   fun cfg now w leads => storeIds_sendAll cfg now w leads⟩

/-- Claim C5 witness: the amended theorem applied to the concrete clear-all
call and a concrete store. -/
theorem C5_leads_retained_except_clear_all_witness :
    (⟨"clearAllLeads", .delete, "/api/leads/clear-all", none,
        .leadsPageLocal⟩ : ApiCall).name = "clearAllLeads" ∧
    storeIds (approveOp [leadWithEmail] "lead-b").2 =
      storeIds [leadWithEmail] :=
  ⟨C5_leads_retained_except_clear_all.1 _ (by decide) (by decide),
   (C5_leads_retained_except_clear_all.2.1 [leadWithEmail] "lead-b").1⟩

/-- Claim C6 counterexample: the aggregate `approved_count` response declared
by `api.bulkApproveLeads` cannot report each id's outcome — two batches whose
per-id outcomes differ (here: only the second lead has no email, versus only
the first lead has no email) produce the very same response. -/
theorem C6_counterexample_aggregate_response :
    toBulkApproveResponse (bulkApprove storeA ["id1", "id2", "id3"]).1 =
      toBulkApproveResponse (bulkApprove storeB ["id1", "id2", "id3"]).1 ∧
    (bulkApprove storeA ["id1", "id2", "id3"]).1 ≠
      (bulkApprove storeB ["id1", "id2", "id3"]).1 ∧
    toBulkApproveResponse (bulkApprove storeA ["id1", "id2", "id3"]).1 =
      { success := true, approved_count := 2 } := by decide

/-- Claim C6 as amended: the bulk operations do apply the single-item
operation per id with partial success — every id in the batch is processed in
order (one id's failure never prevents the rest from being processed), and a
pending lead without an email is skipped with reason "no email" and left
entirely unchanged — but the per-id outcomes are internal; the declared API
response only aggregates them into a count. -/
theorem C6_bulk_independent_processing :
    ∀ (store : LeadStore) (ids : List String),
      (bulkApprove store ids).1.map Prod.fst = ids ∧
      (bulkReject store ids).1.map Prod.fst = ids ∧
      (∀ (id : String) (l : Lead), id ∈ ids →
        findLead store id = some l →
        l.review_status = ReviewStatus.pending → l.email = "" →
        (id, BulkOutcome.skipped "no email") ∈ (bulkApprove store ids).1 ∧
        findLead (bulkApprove store ids).2 id = some l) :=
  fun store ids =>
    ⟨bulkApprove_fst store ids, bulkReject_fst store ids,
     fun id l hmem hf hp hm =>
       ⟨(bulkApprove_preserves_blocked ids store id l hf hp hm).2 hmem,
        (bulkApprove_preserves_blocked ids store id l hf hp hm).1⟩⟩

/-- Claim C6 witness: Scenario C, concretely — in a batch of three ids where
the second lead has no email, all three ids are processed, the second is
reported skipped with reason "no email", and its record is unchanged. -/
theorem C6_bulk_independent_processing_witness :
    (bulkApprove storeA ["id1", "id2", "id3"]).1.map Prod.fst =
      ["id1", "id2", "id3"] ∧
    ("id2", BulkOutcome.skipped "no email") ∈
      (bulkApprove storeA ["id1", "id2", "id3"]).1 ∧
    findLead (bulkApprove storeA ["id1", "id2", "id3"]).2 "id2" =
      some ⟨"id2", "", .pending, .PENDING_REVIEW, .not_sent, 0⟩ :=
  ⟨(C6_bulk_independent_processing storeA ["id1", "id2", "id3"]).1,
   ((C6_bulk_independent_processing storeA ["id1", "id2", "id3"]).2.2 "id2"
      ⟨"id2", "", .pending, .PENDING_REVIEW, .not_sent, 0⟩
      (by decide) (by decide) (by decide) (by decide)).1,
   ((C6_bulk_independent_processing storeA ["id1", "id2", "id3"]).2.2 "id2"
      ⟨"id2", "", .pending, .PENDING_REVIEW, .not_sent, 0⟩
      (by decide) (by decide) (by decide) (by decide)).2⟩

/-- Claim C8 counterexample: the locally declared bulk-approve call of the
Frontend Leads page and the locally declared lead-detail fetch of the
Frontend LeadDetail page both go through the default axios instance, which
ships with no timeout, so not every external call carries a bounded
deadline. -/
theorem C8_counterexample_untimed_call :
    (⟨"bulkApproveLeads", .post, "/api/leads/bulk-approve", none,
        .leadsPageLocal⟩ : ApiCall) ∈ externalCalls ∧
    (⟨"bulkApproveLeads", .post, "/api/leads/bulk-approve", none,
        .leadsPageLocal⟩ : ApiCall).timeoutMs = none ∧
    (⟨"fetchLeadDetail", .get, "/api/leads/id", none,
        .leadDetailPageLocal⟩ : ApiCall) ∈ externalCalls ∧
    (⟨"fetchLeadDetail", .get, "/api/leads/id", none,
        .leadDetailPageLocal⟩ : ApiCall).timeoutMs = none ∧
    ¬ (∀ c ∈ externalCalls, c.timeoutMs.isSome = true) := by decide

/-- Claim C8 as amended: every external call outside the locally declared
page helpers — the five of the Frontend Leads page and the three of the
Frontend LeadDetail page, all on the default axios instance with no
timeout — carries a bounded deadline (10000 ms through the configured axios
instance, 5000 or 10000 ms through AbortSignal.timeout). -/
theorem C8_deadlines_except_page_local_helpers :
    ∀ c ∈ externalCalls,
      c.site ≠ CallSite.leadsPageLocal →
      c.site ≠ CallSite.leadDetailPageLocal →
      c.timeoutMs.isSome = true := by decide

/-- Claim C8 witness: the amended theorem applied to the getOverview call of
the configured API client. -/
theorem C8_deadlines_except_page_local_helpers_witness :
    (⟨"getOverview", .get, "/api/overview", some 10000,
        .apiTs⟩ : ApiCall).timeoutMs.isSome = true :=
  C8_deadlines_except_page_local_helpers _ (by decide) (by decide) (by decide)

/-- Claim C10 counterexample: the fallback check is JavaScript truthiness,
not existence.  After a successful fetch whose JSON body is `false` (cached
as the last successfully fetched value), a later failing fetch returns
`data = null, stale = false` instead of the cached value with `stale = true`
that the claim promises. -/
theorem C10_counterexample_falsy_cache :
    (getOverview ((getOverview [] (.success (.jbool false))).2)
        (.failure "HTTP 500")).1 =
      { data := none, stale := false, error := some "HTTP 500" } ∧
    (fetchWithFallbackClaimed ((getOverview [] (.success (.jbool false))).2)
        "overview" (.failure "HTTP 500")).1 =
      { data := some (.jbool false), stale := true,
        error := some "HTTP 500" } ∧
    (getOverview ((getOverview [] (.success (.jbool false))).2)
        (.failure "HTTP 500")).1 ≠
      (fetchWithFallbackClaimed ((getOverview [] (.success (.jbool false))).2)
        "overview" (.failure "HTTP 500")).1 := by decide

/-- Claim C10 as amended: every helper resolves on every input (the model is
a total function — nothing escapes the try/catch); a successful fetch
resolves fresh with stale false and caches the body; a failing fetch falls
back to the cached value with stale true when that value is truthy, and
resolves with null data otherwise (a cached falsy value counts as absent);
each of the six read helpers is exactly `fetchWithFallback` at its cache
key. -/
theorem C10_fallback_behaviour :
    (∀ (cache : Cache) (key : String) (v : JsVal),
      fetchWithFallback cache key (.success v) =
        ({ data := some v, stale := false, error := none },
         cacheSet cache key v)) ∧
    (∀ (cache : Cache) (key msg : String),
      truthy (cacheGet cache key) = true →
      fetchWithFallback cache key (.failure msg) =
        ({ data := some (cacheGet cache key), stale := true,
           error := some msg }, cache)) ∧
    (∀ (cache : Cache) (key msg : String),
      truthy (cacheGet cache key) = false →
      fetchWithFallback cache key (.failure msg) =
        ({ data := none, stale := false, error := some msg }, cache)) ∧
    (∀ (cache : Cache) (o : FetchOutcome),
      getOverview cache o = fetchWithFallback cache "overview" o ∧
      getLeads cache o = fetchWithFallback cache "leads" o ∧
      getLogs cache o = fetchWithFallback cache "logs" o ∧
      getSystem cache o = fetchWithFallback cache "system" o ∧
      getAgentState cache o = fetchWithFallback cache "agentState" o ∧
      getControlLogs cache o = fetchWithFallback cache "controlLogs" o) := by
  refine ⟨fun c k v => rfl, ?_, ?_,
    fun c o => ⟨rfl, rfl, rfl, rfl, rfl, rfl⟩⟩
  · intro c k m h
    simp [fetchWithFallback, h]
  · intro c k m h
    simp [fetchWithFallback, h]

/-- Claim C10 witness: the amended theorem applied to a concrete cache
holding a truthy overview snapshot and a failing fetch. -/
theorem C10_fallback_behaviour_witness :
    fetchWithFallback [("overview", .jobj "stats")] "overview"
        (.failure "timeout") =
      ({ data := some (.jobj "stats"), stale := true,
         error := some "timeout" }, [("overview", .jobj "stats")]) :=
  C10_fallback_behaviour.2.1 [("overview", .jobj "stats")] "overview"
    "timeout" (by decide)

end ShigiAI
